import Mathlib

/-!
Verification of the LongQC pipeline (`wf/__init__.py`): a four-stage
long-read preprocessing workflow wrapping NanoPlot, Porechop and Filtlong.
The Python source is shallowly embedded: command-line construction becomes
pure list-of-string functions, `subprocess.run` becomes a lookup in an
environment mapping each command to its outcome, and each `@small_task`
becomes a function returning its result together with the trace of emitted
messages, launched commands and files opened for writing.
-/

namespace LongQC

/-- A Python `float` value, modelled by its `str()` rendering (the only use
the pipeline makes of a float is interpolating `str(v)` into a command
line; e.g. the literal `25.0` renders as `"25.0"`). -/
structure PyFloat where
  str : String
deriving Repr, DecidableEq

/-- Model of `latch.types.LatchFile`: a local filesystem path plus the
remote `latch:///` URI passed to the constructor. -/
structure LatchFile where
  local_path : String
  remote_path : String
deriving Repr, DecidableEq

/-- Model of `latch.types.LatchDir`: local directory path plus remote URI. -/
structure LatchDir where
  local_path : String
  remote_path : String
deriving Repr, DecidableEq

/-- A message emitted through `latch.message(level, {"title": .., "body": ..})`. -/
structure Message where
  level : String
  title : String
  body : String
deriving Repr, DecidableEq

/-- Decides whether `pat` occurs as a contiguous run inside `l`: the model
of the Python substring test `pat in s`. -/
def pyIn (pat : List Char) : List Char → Bool
  | [] => pat.isEmpty
  | c :: cs => pat.isPrefixOf (c :: cs) || pyIn pat cs

/-- Python `pat in s` on strings. -/
def pyStrIn (pat s : String) : Bool :=
  pyIn pat.data s.data

/-- Model of `Path(name).resolve()` for a relative `name` under working
directory `cwd` (the pipeline only resolves fresh simple file names, so
resolution is plain prefixing). -/
def pathResolve (cwd name : String) : String :=
  cwd ++ "/" ++ name

/-- Outcome of attempting to launch one external command. -/
inductive RunOutcome where
  | completed (returncode : Nat)
  | launchFailure
deriving Repr, DecidableEq

/-- The process environment: what happens when each command line is run.
Exit statuses are modelled as naturals (POSIX wait statuses; the pipeline
never inspects signal-induced negative returncodes). -/
structure ProcEnv where
  outcome : List String → RunOutcome

/-- An exception raised by `subprocess.run`. -/
inductive SubprocessFailure where
  | calledProcessError (cmd : List String) (returncode : Nat)
  | launchFailure (cmd : List String)
deriving Repr, DecidableEq

/-- Python `str(e)` for a `CalledProcessError` (positive returncodes), and a
rendering for an unlaunchable command. -/
def subprocessFailureStr : SubprocessFailure → String
  | .calledProcessError cmd r =>
      "Command \x27[" ++ String.intercalate ", " (cmd.map fun s => "\x27" ++ s ++ "\x27")
        ++ "]\x27 returned non-zero exit status " ++ toString r ++ "."
  | .launchFailure cmd =>
      "No such file or directory: " ++ String.intercalate " " cmd

/-- An exception escaping a stage: either the `RuntimeError` raised in the
stage's `except` block, or an uncaught exception from `subprocess.run`
(launch failures raise `FileNotFoundError`, which no stage catches). -/
inductive PyExc where
  | runtimeError (msg : String)
  | uncaught (f : SubprocessFailure)
deriving Repr, DecidableEq

/-- `subprocess.run(cmd)` without `check=True`: a launch failure raises; a
completed process returns its returncode without raising, whatever it is. -/
def subprocessRun (env : ProcEnv) (cmd : List String) : Except SubprocessFailure Nat :=
  match env.outcome cmd with
  | .completed r => .ok r
  | .launchFailure => .error (.launchFailure cmd)

/-- `subprocess.run(cmd, check=True)`: additionally raises
`CalledProcessError` on a non-zero returncode. -/
def subprocessRunCheck (env : ProcEnv) (cmd : List String) : Except SubprocessFailure Unit :=
  match env.outcome cmd with
  | .completed r => if r = 0 then .ok () else .error (.calledProcessError cmd r)
  | .launchFailure => .error (.launchFailure cmd)

deriving instance DecidableEq for Except

/-- Result of running one stage (or a composition of stages): the returned
value or escaped exception, the `latch.message` calls made, the command
lines handed to `subprocess.run`, and the paths opened for writing. -/
structure StageOut (α : Type) where
  result : Except PyExc α
  messages : List Message
  invoked : List (List String)
  created : List String
deriving Repr, DecidableEq

/-- Sequencing of stages: traces accumulate; an exception short-circuits. -/
def StageOut.bind {α β : Type} (x : StageOut α) (f : α → StageOut β) : StageOut β :=
  match x.result with
  | .error e => ⟨.error e, x.messages, x.invoked, x.created⟩
  | .ok a =>
      let y := f a
      ⟨y.result, x.messages ++ y.messages, x.invoked ++ y.invoked, x.created ++ y.created⟩

/-! ### The nanoplot stage -/

/-- Output directory name chosen by `nanoplot`: `{sample_name}_prefilt`,
overwritten to `{sample_name}_postfilt` when `"trim"` occurs in the input
file's local path. -/
def nanoplot_output_name (read : LatchFile) (sample_name : String) : String :=
  if pyStrIn "trim" read.local_path then sample_name ++ "_postfilt"
  else sample_name ++ "_prefilt"

/-- The `_nanoplot_cmd` list built by the `nanoplot` task. -/
def nanoplot_cmd (read : LatchFile) (sample_name : String) : List String :=
  ["NanoPlot", "--fastq", read.local_path, "--tsv_stats", "--no_static",
   "--info_in_report", "-o", nanoplot_output_name read sample_name]

/-- The `nanoplot` task. `subprocess.run` is called without `check=True`,
so only a launch failure raises; its `except subprocess.CalledProcessError`
handler is translated faithfully but is unreachable. -/
def nanoplot_run (env : ProcEnv) (cwd : String) (read : LatchFile)
    (sample_name : String) : StageOut LatchDir :=
  let output_name := nanoplot_output_name read sample_name
  let cmd := nanoplot_cmd read sample_name
  match subprocessRun env cmd with
  | .ok _ =>
      ⟨.ok ⟨pathResolve cwd output_name,
            "latch:///longqc/" ++ sample_name ++ "/" ++ output_name⟩,
       [], [cmd], []⟩
  | .error f =>
      match f with
      | .calledProcessError _ _ =>
          ⟨.error (.runtimeError ("NanoPlot error: " ++ subprocessFailureStr f)),
           [⟨"error", "NanoPlot error for " ++ output_name,
             "Error surfaced:\n" ++ subprocessFailureStr f⟩],
           [cmd], []⟩
      | .launchFailure _ =>
          ⟨.error (.uncaught f), [], [cmd], []⟩

/-! ### The run_filtlong stage -/

/-- The parameter record of `run_filtlong`. The Python annotations mark
`min_mean_q` and `keep_percent` as plain `float`, but the body tests every
field against `None`, so all five are embedded as options. -/
structure FiltlongParams where
  min_mean_q : Option PyFloat
  keep_percent : Option PyFloat
  min_length : Option Int
  max_length : Option Int
  min_window_q : Option PyFloat
deriving Repr, DecidableEq

/-- The `_filtlong_cmd` list built by `run_filtlong`: one conditional
`extend` per parameter, then the input path. -/
def filtlong_cmd (read_local_path : String) (p : FiltlongParams) : List String :=
  ["filtlong"]
    ++ (match p.keep_percent with
        | some v => ["--keep_percent", v.str]
        | none => [])
    ++ (match p.min_mean_q with
        | some v => ["--min_mean_q", v.str]
        | none => [])
    ++ (match p.min_length with
        | some v => ["--min_length", toString v]
        | none => [])
    ++ (match p.max_length with
        | some v => ["--max_length", toString v]
        | none => [])
    ++ (match p.min_window_q with
        | some v => ["--min_window_q", v.str]
        | none => [])
    ++ [read_local_path]

/-- The fixed order in which `run_filtlong` considers its optional flags. -/
def filtlongFlagOrder : List String :=
  ["--keep_percent", "--min_mean_q", "--min_length", "--max_length", "--min_window_q"]

/-- Spec-side description of the flag/value pairs (one pair per non-null
parameter, in the fixed order of `filtlongFlagOrder`). -/
def filtlong_flag_pairs (p : FiltlongParams) : List (String × String) :=
  ([("--keep_percent", p.keep_percent.map PyFloat.str),
    ("--min_mean_q", p.min_mean_q.map PyFloat.str),
    ("--min_length", p.min_length.map toString),
    ("--max_length", p.max_length.map toString),
    ("--min_window_q", p.min_window_q.map PyFloat.str)]
   : List (String × Option String)).filterMap
    fun q => q.2.map fun v => (q.1, v)

/-- Whether the parameter governing flag `f` is non-null in `p`. -/
def filtlong_flag_set (p : FiltlongParams) (f : String) : Bool :=
  if f = "--keep_percent" then p.keep_percent.isSome
  else if f = "--min_mean_q" then p.min_mean_q.isSome
  else if f = "--min_length" then p.min_length.isSome
  else if f = "--max_length" then p.max_length.isSome
  else if f = "--min_window_q" then p.min_window_q.isSome
  else false

/-- The `run_filtlong` task: emits the info message, opens the output file
for writing (creating or truncating it), then runs filtlong with
`check=True` and stdout redirected to the file; a `CalledProcessError` is
reported via `latch.message` and re-raised as a `RuntimeError`. -/
def run_filtlong_run (env : ProcEnv) (cwd : String) (read : LatchFile)
    (sample_name : String) (p : FiltlongParams) : StageOut LatchFile :=
  let output_filename := sample_name ++ "_trim_final.fastq"
  let output_file := pathResolve cwd output_filename
  let cmd := filtlong_cmd read.local_path p
  let infoMsg : Message :=
    ⟨"info", "Filtlong command", "Running " ++ String.intercalate " " cmd⟩
  match subprocessRunCheck env cmd with
  | .ok _ =>
      ⟨.ok ⟨output_file, "latch:///longqc/" ++ sample_name ++ "/" ++ output_filename⟩,
       [infoMsg], [cmd], [output_file]⟩
  | .error f =>
      match f with
      | .calledProcessError _ _ =>
          ⟨.error (.runtimeError ("FiltLong error: " ++ subprocessFailureStr f)),
           [infoMsg,
            ⟨"error", "FiltLong error for " ++ sample_name,
             "Error surfaced:\n" ++ subprocessFailureStr f⟩],
           [cmd], [output_file]⟩
      | .launchFailure _ =>
          ⟨.error (.uncaught f), [infoMsg], [cmd], [output_file]⟩

/-! ### The run_porechop stage -/

/-- The `_porechop_cmd` list built by `run_porechop`. -/
def porechop_cmd (read : LatchFile) (sample_name : String) (cwd : String) : List String :=
  ["porechop", "-i", read.local_path, "-o",
   pathResolve cwd (sample_name ++ "_trim.fastq")]

/-- The `run_porechop` task. As in `nanoplot`, `subprocess.run` is called
without `check=True`, so its `except subprocess.CalledProcessError` handler
is unreachable and a non-zero exit does not raise. -/
def run_porechop_run (env : ProcEnv) (cwd : String) (read : LatchFile)
    (sample_name : String) : StageOut LatchFile :=
  let output_filename := sample_name ++ "_trim.fastq"
  let output_file := pathResolve cwd output_filename
  let cmd := porechop_cmd read sample_name cwd
  let infoMsg : Message :=
    ⟨"info", "Porechop command", "Running " ++ String.intercalate " " cmd⟩
  match subprocessRun env cmd with
  | .ok _ =>
      ⟨.ok ⟨output_file, "latch:///longqc/" ++ sample_name ++ "/" ++ output_filename⟩,
       [infoMsg], [cmd], []⟩
  | .error f =>
      match f with
      | .calledProcessError _ _ =>
          ⟨.error (.runtimeError ("Porechop error: " ++ subprocessFailureStr f)),
           [infoMsg,
            ⟨"error", "Porechop error for " ++ sample_name,
             "Error surfaced:\n" ++ subprocessFailureStr f⟩],
           [cmd], []⟩
      | .launchFailure _ =>
          ⟨.error (.uncaught f), [infoMsg], [cmd], []⟩

/-! ### The longqc workflow -/

/-- An element of the workflow's return list `List[Union[LatchDir, LatchFile]]`. -/
inductive Artifact where
  | dir (d : LatchDir)
  | file (f : LatchFile)
deriving Repr, DecidableEq

/-- The defaults declared in the `longqc` signature: `min_mean_q: float =
25.0`, `keep_percent: float = 90.0`, the remaining three `Optional` and
defaulted to `None`. -/
def longqc_default_params : FiltlongParams :=
  ⟨some ⟨"25.0"⟩, some ⟨"90.0"⟩, none, none, none⟩

/-- The `longqc` workflow: nanoplot on the raw read, porechop, filtlong on
the trimmed file, nanoplot on the filtered file, returning
`[prefilt, final_trimmed, postfilt]`. -/
def longqc_run (env : ProcEnv) (cwd : String) (read : LatchFile)
    (sample_name : String) (p : FiltlongParams) : StageOut (List Artifact) :=
  (nanoplot_run env cwd read sample_name).bind fun prefilt =>
  (run_porechop_run env cwd read sample_name).bind fun trimmed =>
  (run_filtlong_run env cwd trimmed sample_name p).bind fun final_trimmed =>
  (nanoplot_run env cwd final_trimmed sample_name).bind fun postfilt =>
  ⟨.ok [.dir prefilt, .file final_trimmed, .dir postfilt], [], [], []⟩

/-- The launch-plan input file for the `SRR19142056` sample, with the local
path the platform materializes it at (a path free of the substring
`"trim"`). -/
def srrRead : LatchFile :=
  ⟨"/root/SRR19142056.fastq", "s3://latch-public/test-data/4318/SRR19142056.fastq"⟩

/-- Spec-side description of the LatchFile returned by `run_filtlong`. -/
def longqc_final_file (cwd sample_name : String) : LatchFile :=
  ⟨pathResolve cwd (sample_name ++ "_trim_final.fastq"),
   "latch:///longqc/" ++ sample_name ++ "/" ++ (sample_name ++ "_trim_final.fastq")⟩

/-- Spec-side description of the LatchDir returned by `nanoplot`. -/
def longqc_report_dir (cwd : String) (read : LatchFile) (sample_name : String) : LatchDir :=
  ⟨pathResolve cwd (nanoplot_output_name read sample_name),
   "latch:///longqc/" ++ sample_name ++ "/" ++ nanoplot_output_name read sample_name⟩

/-- An environment in which every external process exits 0. -/
def envOk : ProcEnv := ⟨fun _ => .completed 0⟩

/-- An environment in which every external process exits 1. -/
def envExit1 : ProcEnv := ⟨fun _ => .completed 1⟩

/-- A concrete raw input file whose path avoids the substring `"trim"`. -/
def readC2 : LatchFile := ⟨"/data/reads.fastq", "latch:///data/reads.fastq"⟩

/-- An environment in which exactly the porechop invocation for `readC2`
and sample `"sample1"` under `/work` exits 1; everything else exits 0. -/
def envTrimFail : ProcEnv :=
  ⟨fun cmd => if cmd = porechop_cmd readC2 "sample1" "/work" then .completed 1
              else .completed 0⟩

/-! ## Claims -/

/-- C1: the filter stage's command line is `filtlong`, then exactly one
flag-value pair per non-null parameter in the fixed order keep-percent,
min-mean-quality, min-length, max-length, min-window-quality, then the
input path as final positional argument; with every parameter null it is
just `filtlong <input>`. -/
theorem run_filtlong_cmd_c1 (path : String) (p : FiltlongParams) :
    filtlong_cmd path p
      = "filtlong" :: ((filtlong_flag_pairs p).map fun q => [q.1, q.2]).flatten ++ [path]
    ∧ (filtlong_flag_pairs p).map Prod.fst = filtlongFlagOrder.filter (filtlong_flag_set p)
    ∧ (p.keep_percent = none → p.min_mean_q = none → p.min_length = none →
        p.max_length = none → p.min_window_q = none →
        filtlong_cmd path p = ["filtlong", path]) := by
  obtain ⟨mmq, kp, ml, xl, mwq⟩ := p
  cases mmq <;> cases kp <;> cases ml <;> cases xl <;> cases mwq <;>
    simp [filtlong_cmd, filtlong_flag_pairs, filtlongFlagOrder, filtlong_flag_set]

/-- Witness for C1 at a concrete all-null parameter set. -/
theorem run_filtlong_cmd_c1_witness :
    filtlong_cmd "reads.fastq" (⟨none, none, none, none, none⟩ : FiltlongParams)
      = ["filtlong", "reads.fastq"] :=
  (run_filtlong_cmd_c1 "reads.fastq" ⟨none, none, none, none, none⟩).2.2 rfl rfl rfl rfl rfl

/-- C7 counterexample: the report stage's actual argument order places
`--no_static` before `--info_in_report`, so the claimed sequence
`--fastq .. --tsv_stats --info_in_report --no_static -o ..` is not the
command built for a concrete input. -/
theorem nanoplot_cmd_order_counterexample :
    nanoplot_cmd ⟨"/data/raw.fastq", "latch:///raw"⟩ "s2"
      ≠ ["NanoPlot", "--fastq", "/data/raw.fastq", "--tsv_stats", "--info_in_report",
         "--no_static", "-o", "s2_prefilt"]
    ∧ (nanoplot_cmd ⟨"/data/raw.fastq", "latch:///raw"⟩ "s2")[4]? = some "--no_static" := by
  decide

/-- C7 amended: whatever the process outcome, the report stage launches
exactly one command: the tool name followed by the argument sequence
`--fastq <input> --tsv_stats --no_static --info_in_report -o <output_name>`. -/
theorem nanoplot_invocation_c7 (env : ProcEnv) (cwd : String) (read : LatchFile)
    (sample_name : String) :
    (nanoplot_run env cwd read sample_name).invoked
      = [["NanoPlot", "--fastq", read.local_path, "--tsv_stats", "--no_static",
          "--info_in_report", "-o", nanoplot_output_name read sample_name]] := by
  rcases h : env.outcome (nanoplot_cmd read sample_name) with r | _ <;>
    simp only [nanoplot_cmd] at h <;>
    simp [nanoplot_run, subprocessRun, nanoplot_cmd, h]

/-- C8: the trim stage launches exactly one command, `porechop -i <input>
-o <output_file>`, and on success its returned file is the resolved
`<sample_name>_trim.fastq`. -/
theorem porechop_invocation_c8 (env : ProcEnv) (cwd : String) (read : LatchFile)
    (sample_name : String) :
    (run_porechop_run env cwd read sample_name).invoked
      = [["porechop", "-i", read.local_path, "-o",
          pathResolve cwd (sample_name ++ "_trim.fastq")]]
    ∧ ∀ f : LatchFile, (run_porechop_run env cwd read sample_name).result = .ok f →
        f.local_path = pathResolve cwd (sample_name ++ "_trim.fastq") := by
  unfold run_porechop_run subprocessRun porechop_cmd
  rcases h : env.outcome
      (["porechop", "-i", read.local_path, "-o",
        pathResolve cwd (sample_name ++ "_trim.fastq")]) with r | _ <;>
    constructor <;> simp [h]

/-- Witness for C8 at a concrete input and an all-success environment. -/
theorem porechop_invocation_c8_witness :
    (run_porechop_run envOk "/work" (⟨"/data/a.fastq", "u"⟩ : LatchFile) "sw").invoked
      = [["porechop", "-i", "/data/a.fastq", "-o",
          pathResolve "/work" ("sw" ++ "_trim.fastq")]]
    ∧ (⟨pathResolve "/work" ("sw" ++ "_trim.fastq"),
        "latch:///longqc/sw/sw_trim.fastq"⟩ : LatchFile).local_path
      = pathResolve "/work" ("sw" ++ "_trim.fastq") :=
  ⟨(porechop_invocation_c8 envOk "/work" ⟨"/data/a.fastq", "u"⟩ "sw").1,
   (porechop_invocation_c8 envOk "/work" ⟨"/data/a.fastq", "u"⟩ "sw").2 _ (by decide)⟩

/-- C9: the report stage's output directory name is
`<sample_name>_postfilt` exactly when `"trim"` occurs in the input file's
local path, and `<sample_name>_prefilt` otherwise. -/
theorem nanoplot_output_name_c9 (read : LatchFile) (sample_name : String) :
    (nanoplot_output_name read sample_name = sample_name ++ "_postfilt"
      ↔ pyStrIn "trim" read.local_path = true)
    ∧ (pyStrIn "trim" read.local_path = false →
        nanoplot_output_name read sample_name = sample_name ++ "_prefilt") := by
  have hne : sample_name ++ "_postfilt" ≠ sample_name ++ "_prefilt" := by
    intro h
    have h2 : (sample_name ++ "_postfilt").data = (sample_name ++ "_prefilt").data :=
      congrArg String.data h
    rw [String.data_append, String.data_append] at h2
    exact absurd (List.append_cancel_left h2) (by decide)
  cases hb : pyStrIn "trim" read.local_path <;>
    simp [nanoplot_output_name, hb, hne, Ne.symm hne]

/-- Witness for C9 at a concrete raw path that contains `"trim"`. -/
theorem nanoplot_output_name_c9_witness :
    nanoplot_output_name (⟨"/data/trimmings_raw.fastq", "u"⟩ : LatchFile) "s9"
      = "s9" ++ "_postfilt" :=
  (nanoplot_output_name_c9 ⟨"/data/trimmings_raw.fastq", "u"⟩ "s9").1.mpr (by decide)

/-- C10: if the filter process completes with a non-zero exit status, the
stage raises a `RuntimeError`, yet the output file
`<sample_name>_trim_final.fastq` was opened for writing (created or
truncated) before the launch and so exists on disk. -/
theorem run_filtlong_failure_creates_output_c10 (env : ProcEnv) (cwd : String)
    (read : LatchFile) (sample_name : String) (p : FiltlongParams) (r : Nat)
    (hr : env.outcome (filtlong_cmd read.local_path p) = .completed r) (hnz : r ≠ 0) :
    (∃ msg, (run_filtlong_run env cwd read sample_name p).result
        = .error (.runtimeError msg))
    ∧ pathResolve cwd (sample_name ++ "_trim_final.fastq")
        ∈ (run_filtlong_run env cwd read sample_name p).created := by
  refine ⟨⟨"FiltLong error: "
      ++ subprocessFailureStr (.calledProcessError (filtlong_cmd read.local_path p) r), ?_⟩, ?_⟩ <;>
    simp [run_filtlong_run, subprocessRunCheck, hr, hnz]

/-- Witness for C10: filtlong exits 1 in `envExit1`. -/
theorem run_filtlong_failure_creates_output_c10_witness :
    (∃ msg, (run_filtlong_run envExit1 "/work" (⟨"/w/t.fastq", "u"⟩ : LatchFile) "s3"
        longqc_default_params).result = .error (.runtimeError msg))
    ∧ pathResolve "/work" ("s3" ++ "_trim_final.fastq")
        ∈ (run_filtlong_run envExit1 "/work" (⟨"/w/t.fastq", "u"⟩ : LatchFile) "s3"
            longqc_default_params).created :=
  run_filtlong_failure_creates_output_c10 envExit1 "/work" ⟨"/w/t.fastq", "u"⟩ "s3"
    longqc_default_params 1 rfl (by decide)

/-- C2 (code bug): `run_porechop` calls `subprocess.run` without
`check=True`, so a non-zero exit of the trim process raises nothing: in an
environment where exactly the porechop process exits 1, the pipeline still
launches all four commands — the filter and post-filter stages do execute —
emits no error message, and returns its artifacts normally. -/
theorem longqc_trim_failure_not_fatal_c2 :
    (longqc_run envTrimFail "/work" readC2 "sample1" longqc_default_params).invoked
      = [nanoplot_cmd readC2 "sample1",
         porechop_cmd readC2 "sample1" "/work",
         filtlong_cmd (pathResolve "/work" ("sample1" ++ "_trim.fastq")) longqc_default_params,
         nanoplot_cmd (longqc_final_file "/work" "sample1") "sample1"]
    ∧ (longqc_run envTrimFail "/work" readC2 "sample1" longqc_default_params).result
      = .ok [.dir (longqc_report_dir "/work" readC2 "sample1"),
             .file (longqc_final_file "/work" "sample1"),
             .dir (longqc_report_dir "/work" (longqc_final_file "/work" "sample1") "sample1")]
    ∧ (longqc_run envTrimFail "/work" readC2 "sample1" longqc_default_params).messages.filter
        (fun m => m.level == "error") = [] := by
  decide

/-- C3 (code bug): `nanoplot` calls `subprocess.run` without `check=True`,
so when the report process exits 1 the stage emits no message, raises no
error, and returns its directory handle as if the run had succeeded. -/
theorem nanoplot_nonzero_exit_unreported_c3 :
    (nanoplot_run envExit1 "/work" (⟨"/data/raw.fastq", "latch:///raw"⟩ : LatchFile) "s1").result
      = .ok ⟨"/work/s1_prefilt", "latch:///longqc/s1/s1_prefilt"⟩
    ∧ (nanoplot_run envExit1 "/work" (⟨"/data/raw.fastq", "latch:///raw"⟩ : LatchFile) "s1").messages
      = [] := by
  decide

/-- Spec-side description of the LatchFile returned by `run_porechop`. -/
def longqc_trimmed_file (cwd sample_name : String) : LatchFile :=
  ⟨pathResolve cwd (sample_name ++ "_trim.fastq"),
   "latch:///longqc/" ++ sample_name ++ "/" ++ (sample_name ++ "_trim.fastq")⟩

/-- Evaluation of `nanoplot_run` when its process launches. -/
theorem nanoplot_run_eq_completed (env : ProcEnv) (cwd : String) (read : LatchFile)
    (s : String) (r : Nat) (h : env.outcome (nanoplot_cmd read s) = .completed r) :
    nanoplot_run env cwd read s
      = ⟨.ok (longqc_report_dir cwd read s), [], [nanoplot_cmd read s], []⟩ := by
  simp [nanoplot_run, subprocessRun, h, longqc_report_dir]

/-- Evaluation of `nanoplot_run` when its process fails to launch. -/
theorem nanoplot_run_eq_launch (env : ProcEnv) (cwd : String) (read : LatchFile)
    (s : String) (h : env.outcome (nanoplot_cmd read s) = .launchFailure) :
    nanoplot_run env cwd read s
      = ⟨.error (.uncaught (.launchFailure (nanoplot_cmd read s))), [],
         [nanoplot_cmd read s], []⟩ := by
  simp [nanoplot_run, subprocessRun, h]

/-- Evaluation of `run_porechop_run` when its process launches. -/
theorem porechop_run_eq_completed (env : ProcEnv) (cwd : String) (read : LatchFile)
    (s : String) (r : Nat) (h : env.outcome (porechop_cmd read s cwd) = .completed r) :
    run_porechop_run env cwd read s
      = ⟨.ok (longqc_trimmed_file cwd s),
         [⟨"info", "Porechop command",
           "Running " ++ String.intercalate " " (porechop_cmd read s cwd)⟩],
         [porechop_cmd read s cwd], []⟩ := by
  simp [run_porechop_run, subprocessRun, h, longqc_trimmed_file]

/-- Evaluation of `run_porechop_run` when its process fails to launch. -/
theorem porechop_run_eq_launch (env : ProcEnv) (cwd : String) (read : LatchFile)
    (s : String) (h : env.outcome (porechop_cmd read s cwd) = .launchFailure) :
    run_porechop_run env cwd read s
      = ⟨.error (.uncaught (.launchFailure (porechop_cmd read s cwd))),
         [⟨"info", "Porechop command",
           "Running " ++ String.intercalate " " (porechop_cmd read s cwd)⟩],
         [porechop_cmd read s cwd], []⟩ := by
  simp [run_porechop_run, subprocessRun, h]

/-- Evaluation of `run_filtlong_run` when its process exits 0. -/
theorem run_filtlong_run_eq_zero (env : ProcEnv) (cwd : String) (read : LatchFile)
    (s : String) (p : FiltlongParams)
    (h : env.outcome (filtlong_cmd read.local_path p) = .completed 0) :
    run_filtlong_run env cwd read s p
      = ⟨.ok (longqc_final_file cwd s),
         [⟨"info", "Filtlong command",
           "Running " ++ String.intercalate " " (filtlong_cmd read.local_path p)⟩],
         [filtlong_cmd read.local_path p], [pathResolve cwd (s ++ "_trim_final.fastq")]⟩ := by
  simp [run_filtlong_run, subprocessRunCheck, h, longqc_final_file]

/-- Evaluation of `run_filtlong_run` when its process exits non-zero. -/
theorem run_filtlong_run_eq_nonzero (env : ProcEnv) (cwd : String) (read : LatchFile)
    (s : String) (p : FiltlongParams) (r : Nat)
    (h : env.outcome (filtlong_cmd read.local_path p) = .completed (Nat.succ r)) :
    run_filtlong_run env cwd read s p
      = ⟨.error (.runtimeError ("FiltLong error: " ++ subprocessFailureStr
            (.calledProcessError (filtlong_cmd read.local_path p) (Nat.succ r)))),
         [⟨"info", "Filtlong command",
           "Running " ++ String.intercalate " " (filtlong_cmd read.local_path p)⟩,
          ⟨"error", "FiltLong error for " ++ s, "Error surfaced:\n" ++ subprocessFailureStr
            (.calledProcessError (filtlong_cmd read.local_path p) (Nat.succ r))⟩],
         [filtlong_cmd read.local_path p], [pathResolve cwd (s ++ "_trim_final.fastq")]⟩ := by
  simp [run_filtlong_run, subprocessRunCheck, h]

/-- Evaluation of `run_filtlong_run` when its process fails to launch. -/
theorem run_filtlong_run_eq_launch (env : ProcEnv) (cwd : String) (read : LatchFile)
    (s : String) (p : FiltlongParams)
    (h : env.outcome (filtlong_cmd read.local_path p) = .launchFailure) :
    run_filtlong_run env cwd read s p
      = ⟨.error (.uncaught (.launchFailure (filtlong_cmd read.local_path p))),
         [⟨"info", "Filtlong command",
           "Running " ++ String.intercalate " " (filtlong_cmd read.local_path p)⟩],
         [filtlong_cmd read.local_path p], [pathResolve cwd (s ++ "_trim_final.fastq")]⟩ := by
  simp [run_filtlong_run, subprocessRunCheck, h]

/-- C4: any successful pipeline run returns exactly
`[pre-filter report dir, final filtered file, post-filter report dir]`, and
launches the four stage commands in the fixed order report(raw), trim(raw),
filter(trimmed), report(filtered). -/
theorem longqc_success_shape_c4 (env : ProcEnv) (cwd : String) (read : LatchFile)
    (sample_name : String) (p : FiltlongParams) (arts : List Artifact)
    (h : (longqc_run env cwd read sample_name p).result = .ok arts) :
    arts = [.dir (longqc_report_dir cwd read sample_name),
            .file (longqc_final_file cwd sample_name),
            .dir (longqc_report_dir cwd (longqc_final_file cwd sample_name) sample_name)]
    ∧ (longqc_run env cwd read sample_name p).invoked
      = [nanoplot_cmd read sample_name,
         porechop_cmd read sample_name cwd,
         filtlong_cmd (pathResolve cwd (sample_name ++ "_trim.fastq")) p,
         nanoplot_cmd (longqc_final_file cwd sample_name) sample_name] := by
  rcases h1 : env.outcome (nanoplot_cmd read sample_name) with r1 | _
  · have e1 := nanoplot_run_eq_completed env cwd read sample_name r1 h1
    rcases h2 : env.outcome (porechop_cmd read sample_name cwd) with r2 | _
    · have e2 := porechop_run_eq_completed env cwd read sample_name r2 h2
      rcases h3 : env.outcome (filtlong_cmd (pathResolve cwd (sample_name ++ "_trim.fastq")) p)
        with (_ | r3) | _
      · have e3 := run_filtlong_run_eq_zero env cwd (longqc_trimmed_file cwd sample_name)
          sample_name p h3
        rcases h4 : env.outcome (nanoplot_cmd (longqc_final_file cwd sample_name) sample_name)
          with r4 | _
        · have e4 := nanoplot_run_eq_completed env cwd (longqc_final_file cwd sample_name)
            sample_name r4 h4
          simp only [longqc_run, StageOut.bind, e1, e2, e3, e4] at h ⊢
          simp only [List.append_nil, List.nil_append, List.append_assoc] at h ⊢
          simp at h
          simp [h, longqc_trimmed_file]
        · have e4 := nanoplot_run_eq_launch env cwd (longqc_final_file cwd sample_name)
            sample_name h4
          simp [longqc_run, StageOut.bind, e1, e2, e3, e4] at h
      · have e3 := run_filtlong_run_eq_nonzero env cwd (longqc_trimmed_file cwd sample_name)
          sample_name p r3 h3
        simp [longqc_run, StageOut.bind, e1, e2, e3] at h
      · have e3 := run_filtlong_run_eq_launch env cwd (longqc_trimmed_file cwd sample_name)
          sample_name p h3
        simp [longqc_run, StageOut.bind, e1, e2, e3] at h
    · have e2 := porechop_run_eq_launch env cwd read sample_name h2
      simp [longqc_run, StageOut.bind, e1, e2] at h
  · have e1 := nanoplot_run_eq_launch env cwd read sample_name h1
    simp [longqc_run, StageOut.bind, e1] at h

/-- Witness for C4 in an all-success environment at concrete inputs. -/
theorem longqc_success_shape_c4_witness :
    ([Artifact.dir (longqc_report_dir "/work" (⟨"/data/in.fastq", "u"⟩ : LatchFile) "sx"),
      Artifact.file (longqc_final_file "/work" "sx"),
      Artifact.dir (longqc_report_dir "/work" (longqc_final_file "/work" "sx") "sx")]
      = [Artifact.dir (longqc_report_dir "/work" (⟨"/data/in.fastq", "u"⟩ : LatchFile) "sx"),
         Artifact.file (longqc_final_file "/work" "sx"),
         Artifact.dir (longqc_report_dir "/work" (longqc_final_file "/work" "sx") "sx")])
    ∧ (longqc_run envOk "/work" (⟨"/data/in.fastq", "u"⟩ : LatchFile) "sx"
        longqc_default_params).invoked
      = [nanoplot_cmd ⟨"/data/in.fastq", "u"⟩ "sx",
         porechop_cmd ⟨"/data/in.fastq", "u"⟩ "sx" "/work",
         filtlong_cmd (pathResolve "/work" ("sx" ++ "_trim.fastq")) longqc_default_params,
         nanoplot_cmd (longqc_final_file "/work" "sx") "sx"] :=
  longqc_success_shape_c4 envOk "/work" ⟨"/data/in.fastq", "u"⟩ "sx" longqc_default_params _
    (by decide)

/-- C5 counterexample: with the declared defaults the filter command also
carries `--keep_percent 90.0`, so it is neither the bare
`filtlong <trimmed_path>` nor only `--min_mean_q 25.0` plus the path. -/
theorem filtlong_default_cmd_c5_counterexample :
    filtlong_cmd "/work/SRR19142056_trim.fastq" longqc_default_params
      ≠ ["filtlong", "--min_mean_q", "25.0", "/work/SRR19142056_trim.fastq"]
    ∧ filtlong_cmd "/work/SRR19142056_trim.fastq" longqc_default_params
      ≠ ["filtlong", "/work/SRR19142056_trim.fastq"]
    ∧ "--keep_percent" ∈ filtlong_cmd "/work/SRR19142056_trim.fastq" longqc_default_params := by
  decide

/-- C5 amended: with sample `"SRR19142056"` and no parameters supplied, the
filter invocation is exactly `filtlong --keep_percent 90.0 --min_mean_q
25.0 <trimmed_path>` (both defaulted flags present) and the run produces
the output file `SRR19142056_trim_final.fastq`. -/
theorem longqc_srr_default_invocation_c5 :
    (longqc_run envOk "/work" srrRead "SRR19142056" longqc_default_params).invoked[2]?
      = some ["filtlong", "--keep_percent", "90.0", "--min_mean_q", "25.0",
              "/work/SRR19142056_trim.fastq"]
    ∧ (longqc_run envOk "/work" srrRead "SRR19142056" longqc_default_params).created
      = ["/work/SRR19142056_trim_final.fastq"]
    ∧ (longqc_run envOk "/work" srrRead "SRR19142056" longqc_default_params).result
      = .ok [.dir ⟨"/work/SRR19142056_prefilt",
                   "latch:///longqc/SRR19142056/SRR19142056_prefilt"⟩,
             .file ⟨"/work/SRR19142056_trim_final.fastq",
                    "latch:///longqc/SRR19142056/SRR19142056_trim_final.fastq"⟩,
             .dir ⟨"/work/SRR19142056_postfilt",
                   "latch:///longqc/SRR19142056/SRR19142056_postfilt"⟩] := by
  decide

/-- C6 counterexample: at the pipeline interface `min_mean_q` and
`keep_percent` are declared plain floats with defaults 25.0 and 90.0, not
null: left unsupplied they are still forwarded to the filter command line,
so not every one of the five parameters is optional-and-omitted. -/
theorem longqc_defaults_not_omitted_c6_counterexample :
    longqc_default_params.min_mean_q ≠ none
    ∧ longqc_default_params.keep_percent ≠ none
    ∧ "--min_mean_q" ∈ filtlong_cmd "reads0.fastq" longqc_default_params
    ∧ "--keep_percent" ∈ filtlong_cmd "reads0.fastq" longqc_default_params := by
  decide

/-- C6 amended: only `min_length`, `max_length` and `min_window_q` are
individually optional at the pipeline interface (defaulting to null) and
are omitted from the filter command line when unset, provided neither the
input path nor a rendered parameter value collides with those flag tokens;
`min_mean_q` and `keep_percent` default to 25.0 and 90.0 and their flags
appear even when the caller supplies nothing. -/
theorem longqc_three_params_optional_c6 (path : String) (p : FiltlongParams)
    (h1 : p.min_length = none) (h2 : p.max_length = none) (h3 : p.min_window_q = none)
    (hv : ∀ q ∈ filtlong_flag_pairs p,
      "--min_length" ≠ q.2 ∧ "--max_length" ≠ q.2 ∧ "--min_window_q" ≠ q.2)
    (hp1 : "--min_length" ≠ path) (hp2 : "--max_length" ≠ path)
    (hp3 : "--min_window_q" ≠ path) :
    "--min_length" ∉ filtlong_cmd path p
    ∧ "--max_length" ∉ filtlong_cmd path p
    ∧ "--min_window_q" ∉ filtlong_cmd path p
    ∧ longqc_default_params.min_length = none
    ∧ longqc_default_params.max_length = none
    ∧ longqc_default_params.min_window_q = none
    ∧ "--keep_percent" ∈ filtlong_cmd path longqc_default_params
    ∧ "--min_mean_q" ∈ filtlong_cmd path longqc_default_params := by
  obtain ⟨mmq, kp, ml, xl, mwq⟩ := p
  cases ml <;> cases xl <;> cases mwq <;> cases mmq <;> cases kp <;>
    simp_all [filtlong_cmd, filtlong_flag_pairs, longqc_default_params]

/-- Witness for C6 at the declared defaults and a concrete path. -/
theorem longqc_three_params_optional_c6_witness :
    "--min_length" ∉ filtlong_cmd "reads.fastq" longqc_default_params
    ∧ "--max_length" ∉ filtlong_cmd "reads.fastq" longqc_default_params
    ∧ "--min_window_q" ∉ filtlong_cmd "reads.fastq" longqc_default_params
    ∧ longqc_default_params.min_length = none
    ∧ longqc_default_params.max_length = none
    ∧ longqc_default_params.min_window_q = none
    ∧ "--keep_percent" ∈ filtlong_cmd "reads.fastq" longqc_default_params
    ∧ "--min_mean_q" ∈ filtlong_cmd "reads.fastq" longqc_default_params :=
  longqc_three_params_optional_c6 "reads.fastq" longqc_default_params rfl rfl rfl
    (by decide) (by decide) (by decide) (by decide)

end LongQC
